import Mathlib

/-!
Verification development for a 2D side-scrolling platformer (single C++
translation unit `source_code/test.cpp`).

Shallow embedding conventions:
* C++ `float`/`double` scalars are modelled as `ℚ` (exact arithmetic; every
  claim checked here depends only on control flow, ordering and exact
  constants, not on rounding).
* C++ `int` fields (`SDL_Rect`, health, pixel coordinates) are `ℤ`.
* The C++ `(int)` cast of a `float` truncates toward zero; it is modelled by
  `truncQ`.
* `sqrtf` is modelled by `Rat.sqrt`; all theorems below only evaluate it at
  `0` and at perfect squares `q * q`, where `Rat.sqrt` agrees exactly with
  the real square root.
* Rendering, audio and file I/O are out of scope (spec §1); calls such as
  `PlaySfx` are omitted, and the `Game` back-pointer is modelled by threading
  a `GameState` value through the functions that mutate it.

Source line numbers cited in doc comments refer to `source_code/test.cpp`.
-/

namespace Platformer

/-! ## Constants (struct Constants, lines 17-28) -/

namespace Constants

def WIN_WIDTH : Int := 1400

def WIN_HEIGHT : Int := 800

def LEVEL_WIDTH : Int := 4250

def FLOOR_LEVEL : Int := 700

def GRAVITY : ℚ := 1800

def TERMINAL_VELOCITY : ℚ := 1200

def CAMERA_DELAY : ℚ := 15

def HORIZONTAL_KNOCKBACK : ℚ := 600

def VERTICAL_KNOCKBACK : ℚ := -200

def FADE_SPEED : ℚ := 300

end Constants

/-- SDL_Rect: integer origin and extents. -/
structure Rect where
  x : Int
  y : Int
  w : Int
  h : Int
deriving DecidableEq, Repr

/-- struct Vector2 (line 30): float components, modelled as ℚ. -/
structure Vec2 where
  x : ℚ
  y : ℚ
deriving DecidableEq, Repr

/-- struct Coin (line 44). -/
structure Coin where
  body : Rect
  collected : Bool
deriving DecidableEq, Repr

/-- struct PlayerData (line 40). -/
structure PlayerData where
  x : Int
  y : Int
  health : Int
deriving DecidableEq, Repr

/-- struct Camera (line 34): float position/target, int view extents. -/
structure Camera where
  targetX : ℚ
  targetY : ℚ
  x : ℚ
  y : ℚ
  w : Int
  h : Int
deriving DecidableEq, Repr

/-- C++ `(int)` cast of a float: truncation toward zero. -/
def truncQ (q : ℚ) : Int := if 0 ≤ q then ⌊q⌋ else ⌈q⌉

/-- AABB (lines 55-62): strict-inequality axis-aligned box overlap test. -/
def AABB (a b : Rect) : Bool :=
  decide (a.x < b.x + b.w) && decide (a.x + a.w > b.x) &&
  decide (a.y < b.y + b.h) && decide (a.y + a.h > b.y)

/-- calcKnockback (lines 65-80). The C++ function mutates `vel` in place;
here the new velocity is returned. `sqrtf` is modelled by `Rat.sqrt`. -/
def calcKnockback (pos : Vec2) (vel : Vec2) (damageLocation : Vec2) : Vec2 :=
  let dirX : ℚ := pos.x - damageLocation.x
  let dirY : ℚ := pos.y - damageLocation.y
  let length : ℚ := Rat.sqrt (dirX * dirX + dirY * dirY)
  if length > 0 then
    let vx : ℚ := dirX / length * Constants.HORIZONTAL_KNOCKBACK
    let vy : ℚ := dirY / length * Constants.HORIZONTAL_KNOCKBACK
    if |vy| < 10 then ⟨vx, Constants.VERTICAL_KNOCKBACK⟩ else ⟨vx, vy⟩
  else vel

/-! ## Axis-separated platform collision resolution

Player::Update lines 364-382 / 390-409 and Enemy::Update lines 604-622 /
628-646 contain the identical per-platform resolution loop over the triple
(pos, vel, body); it is factored out here over `MovingBody`. -/

/-- The (pos, vel, body) triple shared by Player and Enemy. -/
structure MovingBody where
  pos : Vec2
  vel : Vec2
  body : Rect
deriving DecidableEq, Repr

/-- One iteration of the horizontal resolution loop (lines 364-382): if the
body overlaps the platform, push it out along x according to the sign of
`vel.x`, resync `pos.x` from the corrected integer `body.x`, zero `vel.x`. -/
def resolveXStep (mb : MovingBody) (platform : Rect) : MovingBody :=
  if AABB mb.body platform then
    let newX : Int :=
      if mb.vel.x > 0 then platform.x - mb.body.w
      else if mb.vel.x < 0 then platform.x + platform.w
      else mb.body.x
    { mb with
      body := { mb.body with x := newX }
      pos := { mb.pos with x := (newX : ℚ) }
      vel := { mb.vel with x := 0 } }
  else mb

/-- The full horizontal resolution loop over the platform list. -/
def resolveX (platforms : List Rect) (mb : MovingBody) : MovingBody :=
  platforms.foldl resolveXStep mb

/-- One iteration of the vertical resolution loop (lines 390-409): the Bool
accumulator is `groundedThisFrame`, set when a downward collision occurs
(the enemy loop, lines 628-646, is identical except that it has no grounded
flag and simply discards it). -/
def resolveYStep (acc : MovingBody × Bool) (platform : Rect) : MovingBody × Bool :=
  let mb := acc.1
  if AABB mb.body platform then
    let newY : Int :=
      if mb.vel.y > 0 then platform.y - mb.body.h
      else if mb.vel.y < 0 then platform.y + platform.h
      else mb.body.y
    let grounded := acc.2 || decide (mb.vel.y > 0)
    (⟨{ mb.pos with y := (newY : ℚ) }, { mb.vel with y := 0 },
      { mb.body with y := newY }⟩, grounded)
  else acc

/-- The full vertical resolution loop; returns the body and
`groundedThisFrame`. -/
def resolveY (platforms : List Rect) (mb : MovingBody) : MovingBody × Bool :=
  platforms.foldl resolveYStep (mb, false)

/-! ## Entity and game state -/

/-- enum class AttackDirection (line 188). -/
inductive AttackDirection where
  | UP
  | DOWN
  | LEFT
  | RIGHT
deriving DecidableEq, Repr

/-- Player fields (lines 528-557). The two `*PressedLastFrame` edge-detection
booleans are included for completeness although no claim depends on them. -/
structure PlayerState where
  pos : Vec2
  vel : Vec2
  body : Rect
  attackHitbox : Rect
  canDash : Bool
  isDashing : Bool
  dashPressedLastFrame : Bool
  dashTimer : ℚ
  dashCooldown : ℚ
  isAttacking : Bool
  attackPressedLastFrame : Bool
  attackDirection : AttackDirection
  attackTimer : ℚ
  attackCooldown : ℚ
  isGrounded : Bool
  coyoteTimer : ℚ
  damageCooldown : ℚ
  knockbackTimer : ℚ
  isJumping : Bool
  facingLeft : Bool
  speed : ℚ
  jumpVelocity : ℚ
  health : Int
deriving DecidableEq, Repr

/-- Player constructor (lines 194-219). -/
def playerInit (width height : Int) : PlayerState where
  pos := ⟨0, 0⟩
  vel := ⟨0, 0⟩
  body := ⟨0, 0, width, height⟩
  attackHitbox := ⟨0, 0, width, width⟩
  canDash := true
  isDashing := false
  dashPressedLastFrame := false
  dashTimer := 0
  dashCooldown := 0
  isAttacking := false
  attackPressedLastFrame := false
  attackDirection := AttackDirection.RIGHT
  attackTimer := 0
  attackCooldown := 0
  isGrounded := false
  coyoteTimer := 0
  damageCooldown := 0
  knockbackTimer := 0
  isJumping := false
  facingLeft := false
  speed := 300
  jumpVelocity := -960
  health := 10

/-- Enemy fields (lines 702-717). The Ground/Flying subclass distinction is
carried by `isFlying`, exactly as the constructors set it (MeleeEnemy passes
`false`, FlyingEnemy passes `true`, lines 723-740). -/
structure EnemyState where
  pos : Vec2
  vel : Vec2
  body : Rect
  respawnPos : Vec2
  damageCooldown : ℚ
  knockbackTimer : ℚ
  respawnTimer : ℚ
  health : Int
  maxHealth : Int
  onScreen : Bool
  isFlying : Bool
  isAlive : Bool
deriving DecidableEq, Repr

/-- Enemy constructor (lines 564-578). -/
def enemyInit (x y width height health : Int) (isFlying : Bool) : EnemyState where
  pos := ⟨(x : ℚ), (y : ℚ)⟩
  vel := ⟨0, 0⟩
  body := ⟨x, y, width, height⟩
  respawnPos := ⟨(x : ℚ), (y : ℚ)⟩
  damageCooldown := 0
  knockbackTimer := 0
  respawnTimer := 0
  health := health
  maxHealth := health
  onScreen := false
  isFlying := isFlying
  isAlive := true

/-- The Game orchestration flags touched by the simulation core
(lines 1033-1042). -/
structure GameState where
  isRunning : Bool
  playerIsRespawning : Bool
  playerHasReset : Bool
  playerHasWon : Bool
  fadeAlpha : ℚ
deriving DecidableEq, Repr

/-- Game::TriggerPlayerDeath (lines 984-989); the music fade call is out of
scope. -/
def triggerPlayerDeath (g : GameState) : GameState :=
  { g with playerIsRespawning := true, playerHasReset := false, fadeAlpha := 0 }

/-- Game::TriggerWin (lines 991-996): sets the win flag and reuses the death
fade-out. -/
def triggerWin (g : GameState) : GameState :=
  triggerPlayerDeath { g with playerHasWon := true }

/-! ## Damage exchange -/

/-- Player::TakeDamage (lines 1053-1071). Gate: no-op while
`damageCooldown > 0`; otherwise set the knockback and damage cooldowns,
zero the dash timer, apply knockback velocity, subtract health and — when
health drops to ≤ 0 — trigger the death fade. -/
def playerTakeDamage (damage : Int) (damageLocation : Vec2)
    (p : PlayerState) (g : GameState) : PlayerState × GameState :=
  if p.damageCooldown ≤ 0 then
    let p1 := { p with
      knockbackTimer := 1/10
      damageCooldown := 3/4
      dashTimer := 0
      vel := calcKnockback p.pos p.vel damageLocation
      health := p.health - damage }
    if p1.health ≤ 0 then (p1, triggerPlayerDeath g) else (p1, g)
  else (p, g)

/-- Enemy::TakeDamage (lines 1119-1142). Returns the updated enemy together
with the C++ return value (`true` iff the damage gate was open). -/
def enemyTakeDamage (damage : Int) (damageLocation : Vec2)
    (e : EnemyState) : EnemyState × Bool :=
  if e.damageCooldown ≤ 0 then
    let e1 := { e with
      knockbackTimer := 1/10
      damageCooldown := 3/4
      vel := calcKnockback e.pos e.vel damageLocation
      health := e.health - damage }
    if e1.health ≤ 0 then
      ({ e1 with isAlive := false, onScreen := false, respawnTimer := 10 }, true)
    else (e1, true)
  else (e, false)

/-- Enemy::DealDamage (lines 1144-1150): contact damage to the player. -/
def enemyDealDamage (e : EnemyState) (p : PlayerState) (g : GameState) :
    PlayerState × GameState :=
  if e.onScreen then
    if AABB p.body e.body then playerTakeDamage 1 e.pos p g else (p, g)
  else (p, g)

/-- The pogo-bounce check inside Player::DealDamage (lines 1083-1092): after
a successful hit, if `isJumping` is false and the attack direction is DOWN,
override vertical velocity with `jumpVelocity * 1.5` and zero the attack
cooldown. -/
def bounceCheck (tookDamage : Bool) (p : PlayerState) : PlayerState :=
  if tookDamage && !p.isJumping then
    match p.attackDirection with
    | AttackDirection.DOWN =>
        { p with
          vel := { p.vel with y := p.jumpVelocity * (3/2) }
          attackCooldown := 0 }
    | _ => p
  else p

/-- The enemy loop of Player::DealDamage (lines 1077-1094): every on-screen
enemy overlapping the attack hitbox takes 2 damage with the player's position
as damage origin, then the bounce check runs on the player. -/
def dealDamageEnemies (p : PlayerState) :
    List EnemyState → List EnemyState × PlayerState
  | [] => ([], p)
  | e :: rest =>
    if e.onScreen then
      if AABB e.body p.attackHitbox then
        let hit := enemyTakeDamage 2 p.pos e
        let p1 := bounceCheck hit.2 p
        let next := dealDamageEnemies p1 rest
        (hit.1 :: next.1, next.2)
      else
        let next := dealDamageEnemies p rest
        (e :: next.1, next.2)
    else
      let next := dealDamageEnemies p rest
      (e :: next.1, next.2)

/-- The coin loop of Player::DealDamage (lines 1096-1116), with in-place
vector mutation modelled by threading the already-processed prefix `done`.
An uncollected coin overlapping the attack hitbox is marked collected; the
all-collected scan then looks at the whole vector (processed prefix, the
just-updated coin, and the untouched suffix) and fires the win trigger when
it succeeds. Returns the final coin list and whether TriggerWin was called. -/
def coinPassAux (hitbox : Rect) (done : List Coin) :
    List Coin → List Coin × Bool
  | [] => (done, false)
  | c :: rest =>
    if c.collected then coinPassAux hitbox (done ++ [c]) rest
    else if AABB c.body hitbox then
      let c1 : Coin := ⟨c.body, true⟩
      let allCollected := (done ++ c1 :: rest).all (fun x => x.collected)
      let next := coinPassAux hitbox (done ++ [c1]) rest
      (next.1, allCollected || next.2)
    else coinPassAux hitbox (done ++ [c]) rest

/-- Player::DealDamage (lines 1073-1117): early-out unless attacking, then
the enemy loop followed by the coin loop (which may trigger the win fade). -/
def playerDealDamage (enemies : List EnemyState) (coins : List Coin)
    (p : PlayerState) (g : GameState) :
    List EnemyState × List Coin × PlayerState × GameState :=
  if !p.isAttacking then (enemies, coins, p, g)
  else
    let eres := dealDamageEnemies p enemies
    let cres := coinPassAux eres.2.attackHitbox [] coins
    (eres.1, cres.1, eres.2, if cres.2 then triggerWin g else g)

/-! ## Player update (Player::Update, lines 312-459) and jump input -/

/-- The jump portion of Player::HandleInput (lines 256, 272-279): jumping and
direction changes are suppressed while dashing or in knockback; a held jump
key starts a jump only when grounded and not already jumping; releasing the
key clears `isJumping`. -/
def playerHandleJump (jumpPressed : Bool) (p : PlayerState) : PlayerState :=
  if p.isDashing = false ∧ p.knockbackTimer ≤ 0 then
    if jumpPressed then
      if p.isGrounded ∧ p.isJumping = false then
        { p with vel := { p.vel with y := p.jumpVelocity }, isJumping := true }
      else p
    else { p with isJumping := false }
  else p

/-- Lines 313-348: knockback suppression, dash velocity shaping, attack timer,
gravity, jump-cut extra gravity and the terminal-velocity clamp. -/
def playerVelocityPhase (dt : ℚ) (p : PlayerState) : PlayerState :=
  if p.knockbackTimer ≤ 0 then
    let p1 :=
      if p.isDashing then
        let vx : ℚ :=
          if p.facingLeft then -p.speed * 15 * p.dashTimer
          else p.speed * 15 * p.dashTimer
        let t := p.dashTimer - dt
        { p with
          vel := { p.vel with x := vx }
          dashTimer := t
          isDashing := !decide (t ≤ 0) }
      else p
    let p2 :=
      if p1.isAttacking then
        let t := p1.attackTimer - dt
        { p1 with attackTimer := t, isAttacking := !decide (t ≤ 0) }
      else p1
    let vy1 := p2.vel.y + Constants.GRAVITY * dt
    let vy2 :=
      if p2.isJumping = false ∧ vy1 < 0 then vy1 + Constants.GRAVITY * dt * 3
      else vy1
    let vy3 :=
      if vy2 > Constants.TERMINAL_VELOCITY then Constants.TERMINAL_VELOCITY
      else vy2
    { p2 with vel := { p2.vel with y := vy3 } }
  else { p with knockbackTimer := p.knockbackTimer - dt }

/-- Lines 351-362: integrate horizontal velocity, clamp `pos.x` to the level's
horizontal bounds (zeroing `vel.x` when a clamp fires), truncate to `body.x`. -/
def playerIntegrateClampX (dt : ℚ) (p : PlayerState) : PlayerState :=
  let px := p.pos.x + p.vel.x * dt
  let clamped : ℚ × ℚ :=
    if px < 0 then (0, 0)
    else if px + (p.body.w : ℚ) > (Constants.LEVEL_WIDTH : ℚ) then
      (((Constants.LEVEL_WIDTH - p.body.w : Int) : ℚ), 0)
    else (px, p.vel.x)
  { p with
    pos := { p.pos with x := clamped.1 }
    vel := { p.vel with x := clamped.2 }
    body := { p.body with x := truncQ clamped.1 } }

/-- Lines 411-422: the grounding / coyote-timer update run after the vertical
pass. Returns the new `(isGrounded, coyoteTimer)` pair. -/
def groundingUpdate (dt : ℚ) (groundedThisFrame : Bool) (coyoteTimer : ℚ) :
    Bool × ℚ :=
  if groundedThisFrame then (true, 1/20)
  else if coyoteTimer > 0 then (true, coyoteTimer - dt)
  else (false, coyoteTimer)

/-- The coyote timer after a sequence of non-grounded steps with the given
time deltas, starting from the 0.05s value set on the last grounded step. -/
def coyoteAfter (dts : List ℚ) : ℚ :=
  dts.foldl (fun c dt => (groundingUpdate dt false c).2) (1/20)

/-- Lines 425-426: camera target follows the player (integer division for the
int-typed halves, float division by 1.8 for the vertical bias). -/
def cameraTargetUpdate (p : PlayerState) (camera : Camera) : Camera :=
  { camera with
    targetX := p.pos.x + ((Int.tdiv p.body.w 2 : Int) : ℚ)
      - ((Int.tdiv camera.w 2 : Int) : ℚ)
    targetY := p.pos.y + ((Int.tdiv p.body.h 2 : Int) : ℚ)
      - (camera.h : ℚ) / (9/5) }

/-- Lines 429-448: reposition the attack hitbox flush against the player body
on the side given by the attack direction (only while attacking). -/
def attackHitboxUpdate (p : PlayerState) : PlayerState :=
  if p.isAttacking then
    let hb := p.attackHitbox
    let nb : Rect :=
      match p.attackDirection with
      | AttackDirection.UP =>
          { hb with x := truncQ p.pos.x, y := truncQ (p.pos.y - (hb.h : ℚ)) }
      | AttackDirection.DOWN =>
          { hb with x := truncQ p.pos.x, y := truncQ (p.pos.y + (p.body.h : ℚ)) }
      | AttackDirection.LEFT =>
          { hb with
            x := truncQ (p.pos.x - (hb.w : ℚ)),
            y := truncQ (p.pos.y + ((Int.tdiv hb.h 2 : Int) : ℚ)) }
      | AttackDirection.RIGHT =>
          { hb with
            x := truncQ (p.pos.x + (hb.w : ℚ)),
            y := truncQ (p.pos.y + ((Int.tdiv hb.h 2 : Int) : ℚ)) }
    { p with attackHitbox := nb }
  else p

/-- Lines 451-453: tick the dash, attack and damage cooldowns. -/
def playerCooldownTick (dt : ℚ) (p : PlayerState) : PlayerState :=
  let p1 :=
    if p.dashCooldown > 0 then { p with dashCooldown := p.dashCooldown - dt }
    else p
  let p2 :=
    if p1.attackCooldown > 0 then
      { p1 with attackCooldown := p1.attackCooldown - dt }
    else p1
  if p2.damageCooldown > 0 then
    { p2 with damageCooldown := p2.damageCooldown - dt }
  else p2

/-- The player's full horizontal pass (lines 351-382): clamped integration
followed by the horizontal platform resolution loop. -/
def playerHorizontalPass (platforms : List Rect) (dt : ℚ) (p : PlayerState) :
    PlayerState :=
  let p2 := playerIntegrateClampX dt p
  let mb := resolveX platforms ⟨p2.pos, p2.vel, p2.body⟩
  { p2 with pos := mb.pos, vel := mb.vel, body := mb.body }

/-- The player's full vertical pass (lines 384-422): vertical integration,
the vertical platform resolution loop, and the grounding/coyote update.
Also returns `groundedThisFrame`. -/
def playerVerticalPass (platforms : List Rect) (dt : ℚ) (p : PlayerState) :
    PlayerState × Bool :=
  let py := p.pos.y + p.vel.y * dt
  let vres := resolveY platforms ⟨⟨p.pos.x, py⟩, p.vel, { p.body with y := truncQ py }⟩
  let gr := groundingUpdate dt vres.2 p.coyoteTimer
  ({ p with
    pos := vres.1.pos
    vel := vres.1.vel
    body := vres.1.body
    isGrounded := gr.1
    coyoteTimer := gr.2 }, vres.2)

/-- Player::Update (lines 312-459) assembled from the pieces above. -/
def playerUpdate (platforms : List Rect) (camera : Camera) (dt : ℚ)
    (p : PlayerState) : PlayerState × Camera :=
  let p1 := playerVelocityPhase dt p
  let p3 := playerHorizontalPass platforms dt p1
  let p4 := (playerVerticalPass platforms dt p3).1
  let camera1 := cameraTargetUpdate p4 camera
  let p5 := attackHitboxUpdate p4
  let p6 := playerCooldownTick dt p5
  let p7 := if p6.isGrounded ∧ p6.canDash = false then { p6 with canDash := true } else p6
  (p7, camera1)

/-- Player::RespawnPlayer (lines 494-505): reset position, velocity, health
and the damage cooldown, and snap the camera. -/
def respawnPlayer (camera : Camera) (x y hp : Int) (p : PlayerState) :
    PlayerState × Camera :=
  let p1 := { p with
    body := { p.body with x := x, y := y }
    pos := ⟨(x : ℚ), (y : ℚ)⟩
    vel := ⟨0, 0⟩
    damageCooldown := 0
    health := hp }
  let c1 := { camera with
    x := 0
    y := p1.pos.y + ((Int.tdiv p1.body.h 2 : Int) : ℚ) - (camera.h : ℚ) / (9/5) }
  (p1, c1)

/-- Player::setPlayerData (lines 514-526): install the loaded save data; if
the saved health is ≤ 0, immediately call TakeDamage with zero damage to
re-trigger the death sequence. -/
def setPlayerData (data : PlayerData) (p : PlayerState) (g : GameState) :
    PlayerState × GameState :=
  let p1 := { p with
    body := { p.body with x := data.x, y := data.y }
    pos := ⟨(data.x : ℚ), (data.y : ℚ)⟩
    health := data.health }
  if p1.health ≤ 0 then playerTakeDamage 0 ⟨0, 0⟩ p1 g else (p1, g)

/-! ## Enemy update (Enemy::Update, lines 582-656) -/

/-- MeleeEnemy::TrackPlayer (lines 728-732) and FlyingEnemy::TrackPlayer
(lines 743-751), dispatched on the `isFlying` tag fixed at construction. -/
def trackPlayer (e : EnemyState) (playerPos : Vec2) (playerBody : Rect) :
    EnemyState :=
  if e.isFlying then
    let vx : ℚ :=
      if playerPos.x + (playerBody.w : ℚ) < e.pos.x + 1 then -100
      else if playerPos.x > e.pos.x + (e.body.w : ℚ) - 1 then 100
      else 0
    let vy : ℚ :=
      if playerPos.y + (playerBody.h : ℚ) < e.pos.y + 1 then -100
      else if playerPos.y > e.pos.y + (e.body.h : ℚ) - 1 then 100
      else 0
    { e with vel := ⟨vx, vy⟩ }
  else
    let vx : ℚ :=
      if playerPos.x + (playerBody.w : ℚ) < e.pos.x + 1 then -150
      else if playerPos.x > e.pos.x + (e.body.w : ℚ) - 1 then 150
      else 0
    { e with vel := { e.vel with x := vx } }

/-- Enemy::Respawn (lines 677-685). -/
def enemyRespawn (e : EnemyState) : EnemyState :=
  { e with
    isAlive := true
    health := e.maxHealth
    knockbackTimer := 0
    pos := e.respawnPos
    body := { e.body with x := truncQ e.respawnPos.x, y := truncQ e.respawnPos.y } }

/-- Enemy::CheckOnScreen (lines 687-696). -/
def checkOnScreen (cameraRect : Rect) (e : EnemyState) : EnemyState :=
  if e.isAlive then { e with onScreen := AABB e.body cameraRect } else e

/-- Enemy::Update, lines 582-652 (everything except the final cooldown
tick): on-screen enemies track the player (with gravity unless flying) or
tick knockback, then run the two collision passes; off-screen dead enemies
tick the respawn countdown. -/
def enemyUpdateCore (platforms : List Rect) (dt : ℚ) (playerPos : Vec2)
    (playerBody : Rect) (e : EnemyState) : EnemyState :=
  if e.onScreen then
    let ea :=
      if e.knockbackTimer ≤ 0 then
        let et := trackPlayer e playerPos playerBody
        if et.isFlying = false then
          let vy1 := et.vel.y + Constants.GRAVITY * dt
          let vy2 :=
            if vy1 > Constants.TERMINAL_VELOCITY then Constants.TERMINAL_VELOCITY
            else vy1
          { et with vel := { et.vel with y := vy2 } }
        else et
      else { e with knockbackTimer := e.knockbackTimer - dt }
    let px := ea.pos.x + ea.vel.x * dt
    let mb1 : MovingBody := ⟨⟨px, ea.pos.y⟩, ea.vel, { ea.body with x := truncQ px }⟩
    let mb2 := resolveX platforms mb1
    let py := mb2.pos.y + mb2.vel.y * dt
    let mb3 : MovingBody := ⟨⟨mb2.pos.x, py⟩, mb2.vel, { mb2.body with y := truncQ py }⟩
    let mb4 := (resolveY platforms mb3).1
    { ea with pos := mb4.pos, vel := mb4.vel, body := mb4.body }
  else if e.isAlive = false then
    let rt := e.respawnTimer - dt
    if rt ≤ 0 then enemyRespawn { e with respawnTimer := rt }
    else { e with respawnTimer := rt }
  else e

/-- Enemy::Update (lines 582-656): the branches above followed by the damage
cooldown tick (line 655), which runs in every case. -/
def enemyUpdate (platforms : List Rect) (dt : ℚ) (playerPos : Vec2)
    (playerBody : Rect) (e : EnemyState) : EnemyState :=
  let e1 := enemyUpdateCore platforms dt playerPos playerBody e
  if e1.damageCooldown > 0 then { e1 with damageCooldown := e1.damageCooldown - dt }
  else e1

/-! ## Game orchestration (Game::Update, lines 862-937) -/

/-- The whole mutable world owned by Game (lines 1032-1046), restricted to
the simulation core. -/
structure World where
  game : GameState
  camera : Camera
  cameraRect : Rect
  player : PlayerState
  enemies : List EnemyState
  platforms : List Rect
  coins : List Coin
deriving DecidableEq, Repr

/-- The per-enemy portion of the Active branch (lines 875-879): for each
enemy in order, CheckOnScreen, Update, then contact damage against the
player, threading the player and game state through the loop. -/
def enemiesPhase (cameraRect : Rect) (platforms : List Rect) (dt : ℚ) :
    List EnemyState → PlayerState → GameState →
    List EnemyState × PlayerState × GameState
  | [], p, g => ([], p, g)
  | e :: rest, p, g =>
    let e1 := checkOnScreen cameraRect e
    let e2 := enemyUpdate platforms dt p.pos p.body e1
    let pd := enemyDealDamage e2 p g
    let next := enemiesPhase cameraRect platforms dt rest pd.1 pd.2
    (e2 :: next.1, next.2)

/-- Lines 884-900: copy the (pre-smoothing) camera position into the int
camera rectangle, clamp the camera target to the level bounds, then move the
camera toward the target by exponential smoothing. -/
def cameraPhase (dt : ℚ) (camera : Camera) (cameraRect : Rect) : Camera × Rect :=
  let rect := { cameraRect with x := truncQ camera.x, y := truncQ camera.y }
  let bound : ℚ := ((Constants.LEVEL_WIDTH - camera.w : Int) : ℚ)
  let tX :=
    if camera.targetX < 0 then 0
    else if camera.targetX > bound then bound
    else camera.targetX
  let tY := if camera.targetY > 0 then 0 else camera.targetY
  let cy := camera.y + (tY - camera.y) * Constants.CAMERA_DELAY * dt
  let cx := camera.x + (tX - camera.x) * Constants.CAMERA_DELAY * dt
  ({ camera with targetX := tX, targetY := tY, x := cx, y := cy }, rect)

/-- Game::Update after the delta-time clamp (lines 873-936): the Active
branch (enemy phase, player update, combat resolution, camera), the FadeOut
branch (alpha rises; at maximum the player is respawned and, unless the run
was won, enemies are respawned and coins reset — on a win the game stops),
and the FadeIn branch (alpha falls back to zero). -/
def gameStep (dt : ℚ) (w : World) : World :=
  if w.game.playerIsRespawning = false then
    let ep := enemiesPhase w.cameraRect w.platforms dt w.enemies w.player w.game
    let pu := playerUpdate w.platforms w.camera dt ep.2.1
    let dd := playerDealDamage ep.1 w.coins pu.1 ep.2.2
    let cp := cameraPhase dt pu.2 w.cameraRect
    { w with
      game := dd.2.2.2
      camera := cp.1
      cameraRect := cp.2
      player := dd.2.2.1
      enemies := dd.1
      coins := dd.2.1 }
  else if w.game.playerHasReset = false then
    let fa := w.game.fadeAlpha + Constants.FADE_SPEED * dt
    if fa ≥ 255 then
      let rp := respawnPlayer w.camera 100 250 10 w.player
      let g1 := { w.game with fadeAlpha := 255, playerHasReset := true }
      if w.game.playerHasWon = false then
        { w with
          game := g1
          player := rp.1
          camera := rp.2
          enemies := w.enemies.map enemyRespawn
          coins := w.coins.map (fun c => ⟨c.body, false⟩) }
      else
        { w with game := { g1 with isRunning := false }, player := rp.1, camera := rp.2 }
    else { w with game := { w.game with fadeAlpha := fa } }
  else
    let fa := w.game.fadeAlpha - Constants.FADE_SPEED * dt
    if fa ≤ 0 then
      { w with game := { w.game with fadeAlpha := 0, playerIsRespawning := false } }
    else { w with game := { w.game with fadeAlpha := fa } }

/-- Lines 864-865: the raw per-step delta computed from millisecond ticks. -/
def rawDelta (currentTick previousTick : ℕ) : ℚ :=
  ((currentTick : ℚ) - (previousTick : ℚ)) / 1000

/-- Lines 868-871: clamp the raw delta to at most 0.05s. -/
def clampDeltaTime (dt : ℚ) : ℚ := if dt > 1/20 then 1/20 else dt

/-- Game::Update (lines 862-937): the delta is clamped first; everything else
runs with the clamped value. -/
def gameUpdate (rawDt : ℚ) (w : World) : World :=
  gameStep (clampDeltaTime rawDt) w

/-! ## Helper lemmas -/

theorem ratSqrt_zero : Rat.sqrt 0 = 0 := by
  have h : (0 : ℚ) = 0 * 0 := by ring
  rw [h, Rat.sqrt_eq]
  simp

theorem truncQ_intCast (n : ℤ) : truncQ (n : ℚ) = n := by
  unfold truncQ
  split <;> simp

theorem AABB_false_of_right_le (b plat : Rect) (h : b.x + b.w ≤ plat.x) :
    AABB b plat = false := by
  unfold AABB
  rw [decide_eq_false (not_lt.mpr h)]
  simp

theorem AABB_false_of_left_ge (b plat : Rect) (h : plat.x + plat.w ≤ b.x) :
    AABB b plat = false := by
  unfold AABB
  rw [decide_eq_false (not_lt.mpr h)]
  simp

theorem AABB_false_of_bottom_le (b plat : Rect) (h : b.y + b.h ≤ plat.y) :
    AABB b plat = false := by
  unfold AABB
  rw [decide_eq_false (not_lt.mpr h)]
  simp

theorem AABB_false_of_top_ge (b plat : Rect) (h : plat.y + plat.h ≤ b.y) :
    AABB b plat = false := by
  unfold AABB
  rw [decide_eq_false (not_lt.mpr h)]
  simp

/-! ## Claims -/

/-- C4: knockback with coincident source and damage origin (zero-length
direction) leaves the velocity vector entirely unchanged; for a purely
horizontal offset the resulting vertical velocity equals the fixed
vertical-knockback constant; and in general the threshold override applies
whenever the magnitude of the scaled vertical component is below 10. -/
theorem C4_calcKnockback_degenerate_and_horizontal :
    (∀ pos vel loc : Vec2, pos = loc → calcKnockback pos vel loc = vel) ∧
    (∀ pos vel loc : Vec2, pos.y = loc.y → pos.x ≠ loc.x →
      (calcKnockback pos vel loc).y = Constants.VERTICAL_KNOCKBACK) ∧
    (∀ pos vel loc : Vec2,
      0 < Rat.sqrt ((pos.x - loc.x) * (pos.x - loc.x) +
        (pos.y - loc.y) * (pos.y - loc.y)) →
      |(pos.y - loc.y) /
          Rat.sqrt ((pos.x - loc.x) * (pos.x - loc.x) +
            (pos.y - loc.y) * (pos.y - loc.y)) *
          Constants.HORIZONTAL_KNOCKBACK| < 10 →
      (calcKnockback pos vel loc).y = Constants.VERTICAL_KNOCKBACK) := by
  refine ⟨?_, ?_, ?_⟩
  · intro pos vel loc h
    subst h
    simp [calcKnockback, ratSqrt_zero]
  · intro pos vel loc hy hx
    have hd : pos.y - loc.y = 0 := by rw [hy]; ring
    unfold calcKnockback
    simp only [hd]
    rw [show (pos.x - loc.x) * (pos.x - loc.x) + 0 * 0 =
      (pos.x - loc.x) * (pos.x - loc.x) by ring, Rat.sqrt_eq]
    have hpos : 0 < |pos.x - loc.x| := abs_pos.mpr (sub_ne_zero.mpr hx)
    rw [if_pos hpos]
    norm_num
  · intro pos vel loc hlen hsmall
    unfold calcKnockback
    rw [if_pos hlen, if_pos hsmall]

/-- Witness for C4 at concrete inputs: coincident points at (2,3) with
velocity (7,8), and a purely horizontal offset from (2,3) to (5,3). -/
theorem C4_witness :
    calcKnockback ⟨2, 3⟩ ⟨7, 8⟩ ⟨2, 3⟩ = ⟨7, 8⟩ ∧
    (calcKnockback ⟨5, 3⟩ ⟨7, 8⟩ ⟨2, 3⟩).y = Constants.VERTICAL_KNOCKBACK :=
  ⟨C4_calcKnockback_degenerate_and_horizontal.1 ⟨2, 3⟩ ⟨7, 8⟩ ⟨2, 3⟩ rfl,
   C4_calcKnockback_degenerate_and_horizontal.2.1 ⟨5, 3⟩ ⟨7, 8⟩ ⟨2, 3⟩ rfl
     (by norm_num)⟩

/-- C9: Enemy::TakeDamage returns true iff the enemy's damage cooldown was
≤ 0 at the call, and when it returns false the enemy is entirely unchanged. -/
theorem C9_enemyTakeDamage_gate :
    ∀ (e : EnemyState) (damage : Int) (loc : Vec2),
      ((enemyTakeDamage damage loc e).2 = true ↔ e.damageCooldown ≤ 0) ∧
      ((enemyTakeDamage damage loc e).2 = false →
        (enemyTakeDamage damage loc e).1 = e) := by
  intro e damage loc
  unfold enemyTakeDamage
  by_cases h : e.damageCooldown ≤ 0
  · rw [if_pos h]
    constructor
    · constructor
      · intro _
        exact h
      · intro _
        dsimp only
        split <;> rfl
    · intro hfalse
      exfalso
      revert hfalse
      dsimp only
      split <;> simp
  · rw [if_neg h]
    constructor
    · simp [h]
    · intro _
      rfl

/-- Witness for C9: an enemy with damage cooldown 0.5 takes no damage and is
returned unchanged. -/
theorem C9_witness :
    (enemyTakeDamage 2 ⟨0, 0⟩
      { enemyInit 0 0 50 50 5 false with damageCooldown := 1/2 }).1 =
    { enemyInit 0 0 50 50 5 false with damageCooldown := 1/2 } :=
  (C9_enemyTakeDamage_gate
    { enemyInit 0 0 50 50 5 false with damageCooldown := 1/2 } 2 ⟨0, 0⟩).2
    (by norm_num [enemyTakeDamage, enemyInit])

/-- C7: the raw per-step delta is clamped to at most 0.05s and every part of
Game::Update runs with the clamped value; a reported delta of one second
(1000 ticks) is reduced to 0.05s. -/
theorem C7_deltaTime_clamped :
    ∀ (rawDt : ℚ) (w : World) (prev : ℕ),
      gameUpdate rawDt w = gameStep (clampDeltaTime rawDt) w ∧
      clampDeltaTime rawDt ≤ 1/20 ∧
      clampDeltaTime (rawDelta (prev + 1000) prev) = 1/20 := by
  intro rawDt w prev
  refine ⟨rfl, ?_, ?_⟩
  · unfold clampDeltaTime
    split
    · exact le_refl _
    · linarith [not_lt.mp (by assumption : ¬rawDt > 1/20)]
  · have h : rawDelta (prev + 1000) prev = 1 := by
      unfold rawDelta
      push_cast
      ring
    rw [h]
    norm_num [clampDeltaTime]

/-- C2 (amended): with a single platform and a nonzero velocity component
along the axis, the axis resolution loop leaves the body strictly outside the
platform along that axis. (The original claim over arbitrary platform sets
and states is refuted by `C2_counterexample`.) -/
theorem C2_amended_single_platform_separation :
    ∀ (platform : Rect) (mb : MovingBody),
      (mb.vel.x ≠ 0 → AABB (resolveX [platform] mb).body platform = false) ∧
      (mb.vel.y ≠ 0 → AABB (resolveY [platform] mb).1.body platform = false) := by
  intro platform mb
  constructor
  · intro hv
    simp only [resolveX, List.foldl_cons, List.foldl_nil, resolveXStep]
    by_cases h : AABB mb.body platform = true
    · rw [if_pos h]
      rcases lt_or_gt_of_ne hv with hneg | hpos
      · rw [if_neg (by exact fun hc => absurd hneg (not_lt.mpr (le_of_lt hc))),
          if_pos hneg]
        exact AABB_false_of_left_ge _ _ (by simp)
      · rw [if_pos hpos]
        exact AABB_false_of_right_le _ _ (by simp)
    · rw [if_neg h]
      exact Bool.not_eq_true _ ▸ h
  · intro hv
    simp only [resolveY, List.foldl_cons, List.foldl_nil, resolveYStep]
    by_cases h : AABB mb.body platform = true
    · rw [if_pos h]
      rcases lt_or_gt_of_ne hv with hneg | hpos
      · rw [if_neg (by exact fun hc => absurd hneg (not_lt.mpr (le_of_lt hc))),
          if_pos hneg]
        exact AABB_false_of_top_ge _ _ (by simp)
      · rw [if_pos hpos]
        exact AABB_false_of_bottom_le _ _ (by simp)
    · rw [if_neg h]
      exact Bool.not_eq_true _ ▸ h

/-- Counterexample to C2 as stated: with zero horizontal velocity the
horizontal loop leaves an overlapping body overlapping, and with two
platforms a push-out against the second platform moves the body into the
first (already-processed) one, where it stays because the velocity has been
zeroed. -/
theorem C2_counterexample :
    AABB (resolveX [⟨0, 0, 20, 20⟩]
      ⟨⟨5, 5⟩, ⟨0, 0⟩, ⟨5, 5, 10, 10⟩⟩).body ⟨0, 0, 20, 20⟩ = true ∧
    AABB (resolveX [⟨0, 0, 10, 10⟩, ⟨12, 0, 10, 10⟩]
      ⟨⟨13, 0⟩, ⟨1, 0⟩, ⟨13, 0, 5, 5⟩⟩).body ⟨0, 0, 10, 10⟩ = true := by
  constructor <;> norm_num [resolveX, resolveXStep, AABB]

/-- Witness for C2 at a concrete input: a body moving right (resp. down)
into a single platform ends strictly outside it. -/
theorem C2_witness :
    AABB (resolveX [⟨0, 0, 20, 20⟩]
      ⟨⟨5, 5⟩, ⟨1, 0⟩, ⟨5, 5, 10, 10⟩⟩).body ⟨0, 0, 20, 20⟩ = false ∧
    AABB (resolveY [⟨0, 0, 20, 20⟩]
      ⟨⟨5, 5⟩, ⟨0, 1⟩, ⟨5, 5, 10, 10⟩⟩).1.body ⟨0, 0, 20, 20⟩ = false :=
  ⟨(C2_amended_single_platform_separation ⟨0, 0, 20, 20⟩
      ⟨⟨5, 5⟩, ⟨1, 0⟩, ⟨5, 5, 10, 10⟩⟩).1 (by norm_num),
   (C2_amended_single_platform_separation ⟨0, 0, 20, 20⟩
      ⟨⟨5, 5⟩, ⟨0, 1⟩, ⟨5, 5, 10, 10⟩⟩).2 (by norm_num)⟩

/-- C5 (amended): only the player's horizontal pass clamps the position to
the level's horizontal bounds (lines 353-360, between integration and
platform resolution); enemy updates contain no such clamp, so an enemy (for
example under knockback) can leave the level horizontally, as
`C5_counterexample` shows. -/
theorem C5_amended_player_horizontal_clamp :
    ∀ (dt : ℚ) (p : PlayerState), p.body.w ≤ Constants.LEVEL_WIDTH →
      0 ≤ (playerIntegrateClampX dt p).pos.x ∧
      (playerIntegrateClampX dt p).pos.x + (p.body.w : ℚ) ≤
        (Constants.LEVEL_WIDTH : ℚ) := by
  intro dt p hw
  unfold playerIntegrateClampX
  dsimp only
  split
  · constructor
    · norm_num
    · have : (p.body.w : ℚ) ≤ (Constants.LEVEL_WIDTH : ℚ) := by exact_mod_cast hw
      simpa using this
  · split
    · constructor
      · have : (0 : ℚ) ≤ ((Constants.LEVEL_WIDTH - p.body.w : Int) : ℚ) := by
          exact_mod_cast Int.sub_nonneg.mpr hw
        simpa using this
      · push_cast
        simp
    · rename_i h1 h2
      constructor
      · simpa using not_lt.mp h1
      · simpa using not_lt.mp h2

/-- Counterexample to C5 as stated: an on-screen ground enemy in knockback
with leftward velocity 600 at the left level edge is, after one enemy update
step of 0.05s with no platforms, at horizontal position -30 — outside the
level. -/
theorem C5_counterexample :
    (enemyUpdate [] (1/20) ⟨500, 0⟩ ⟨500, 0, 55, 100⟩
      { enemyInit 0 0 50 50 5 false with
        onScreen := true, knockbackTimer := 1/5, vel := ⟨-600, 0⟩ }).pos.x < 0 := by
  norm_num [enemyUpdate, enemyUpdateCore, enemyInit, resolveX, resolveY]

/-- Witness for C5 at a concrete input: the freshly constructed player after
one clamped-integration step lies inside the level horizontally. -/
theorem C5_witness :
    0 ≤ (playerIntegrateClampX (1/20) (playerInit 55 100)).pos.x ∧
    (playerIntegrateClampX (1/20) (playerInit 55 100)).pos.x +
      ((playerInit 55 100).body.w : ℚ) ≤ (Constants.LEVEL_WIDTH : ℚ) :=
  C5_amended_player_horizontal_clamp (1/20) (playerInit 55 100)
    (by norm_num [playerInit, Constants.LEVEL_WIDTH])

theorem playerTakeDamage_closed (p : PlayerState) (g : GameState) (dmg : Int)
    (loc : Vec2) (h : 0 < p.damageCooldown) :
    playerTakeDamage dmg loc p g = (p, g) := by
  unfold playerTakeDamage
  rw [if_neg (not_le.mpr h)]

theorem enemyTakeDamage_closed (e : EnemyState) (dmg : Int) (loc : Vec2)
    (h : 0 < e.damageCooldown) : enemyTakeDamage dmg loc e = (e, false) := by
  unfold enemyTakeDamage
  rw [if_neg (not_le.mpr h)]

theorem playerTakeDamage_open (p : PlayerState) (g : GameState) (dmg : Int)
    (loc : Vec2) (h : p.damageCooldown ≤ 0) :
    (playerTakeDamage dmg loc p g).1 =
      { p with
        knockbackTimer := 1/10
        damageCooldown := 3/4
        dashTimer := 0
        vel := calcKnockback p.pos p.vel loc
        health := p.health - dmg } := by
  unfold playerTakeDamage
  rw [if_pos h]
  dsimp only
  split <;> rfl

theorem playerCooldownTick_damageCooldown (dt : ℚ) (p : PlayerState) :
    (playerCooldownTick dt p).damageCooldown =
      if 0 < p.damageCooldown then p.damageCooldown - dt
      else p.damageCooldown := by
  unfold playerCooldownTick
  dsimp only
  split <;> split <;> split <;> simp_all

theorem playerCooldownTick_health (dt : ℚ) (p : PlayerState) :
    (playerCooldownTick dt p).health = p.health := by
  unfold playerCooldownTick
  dsimp only
  split <;> split <;> split <;> rfl

theorem countdown_pos_iff :
    ∀ (dts : List ℚ) (c : ℚ), (∀ d ∈ dts, 0 ≤ d) →
      (0 < dts.foldl (fun q dt => if 0 < q then q - dt else q) c ↔
        0 < c - dts.sum) := by
  intro dts
  induction dts with
  | nil =>
    intro c _
    simp
  | cons d rest ih =>
    intro c h
    have hd : 0 ≤ d := h d (List.mem_cons_self _ _)
    have hrest : ∀ x ∈ rest, 0 ≤ x := fun x hx => h x (List.mem_cons_of_mem _ hx)
    have hs : 0 ≤ rest.sum := List.sum_nonneg hrest
    simp only [List.foldl_cons, List.sum_cons]
    by_cases hc : 0 < c
    · rw [if_pos hc, ih (c - d) hrest]
      constructor <;> intro <;> linarith
    · rw [if_neg hc, ih c hrest]
      constructor <;> intro <;> linarith

theorem foldCooldownTick_damageCooldown :
    ∀ (dts : List ℚ) (p : PlayerState),
      (dts.foldl (fun q dt => playerCooldownTick dt q) p).damageCooldown =
        dts.foldl (fun q dt => if 0 < q then q - dt else q) p.damageCooldown := by
  intro dts
  induction dts with
  | nil =>
    intro p
    rfl
  | cons d rest ih =>
    intro p
    simp only [List.foldl_cons]
    rw [ih, playerCooldownTick_damageCooldown]

theorem foldCooldownTick_health :
    ∀ (dts : List ℚ) (p : PlayerState),
      (dts.foldl (fun q dt => playerCooldownTick dt q) p).health = p.health := by
  intro dts
  induction dts with
  | nil =>
    intro p
    rfl
  | cons d rest ih =>
    intro p
    simp only [List.foldl_cons]
    rw [ih, playerCooldownTick_health]

theorem trackPlayer_damageCooldown (e : EnemyState) (ppos : Vec2) (pbody : Rect) :
    (trackPlayer e ppos pbody).damageCooldown = e.damageCooldown := by
  unfold trackPlayer
  split <;> rfl

theorem enemyUpdateCore_damageCooldown (platforms : List Rect) (dt : ℚ)
    (ppos : Vec2) (pbody : Rect) (e : EnemyState) :
    (enemyUpdateCore platforms dt ppos pbody e).damageCooldown =
      e.damageCooldown := by
  unfold enemyUpdateCore
  dsimp only
  split
  · split
    · split
      · exact trackPlayer_damageCooldown e ppos pbody
      · exact trackPlayer_damageCooldown e ppos pbody
    · rfl
  · split
    · split <;> rfl
    · rfl

theorem enemyUpdate_damageCooldown (platforms : List Rect) (dt : ℚ)
    (ppos : Vec2) (pbody : Rect) (e : EnemyState) :
    (enemyUpdate platforms dt ppos pbody e).damageCooldown =
      if 0 < e.damageCooldown then e.damageCooldown - dt
      else e.damageCooldown := by
  unfold enemyUpdate
  dsimp only
  rw [enemyUpdateCore_damageCooldown]
  split <;> simp [enemyUpdateCore_damageCooldown]

/-- C3: TakeDamage is gated by the damage cooldown for both entities. While
the cooldown is positive it applies no damage and changes no state; an
open-gate call sets the knockback timer to 0.1s and the damage cooldown to
0.75s, cancels any active dash (player: `dashTimer := 0`), applies the
knockback velocity and subtracts the damage from health; a second call after
elapsed cooldown ticks summing to less than 0.75s is a no-op, so damage
within one window is applied exactly once (last conjunct: each Enemy::Update
advances the enemy's damage cooldown by exactly one tick of `dt`, tying the
enemy's window to simulated time the same way). -/
theorem C3_takeDamage_cooldown_gating :
    ∀ (p : PlayerState) (e : EnemyState) (g g2 : GameState) (dmg dmg2 : Int)
      (loc loc2 : Vec2) (dts : List ℚ) (platforms : List Rect) (dt : ℚ)
      (ppos : Vec2) (pbody : Rect),
      (0 < p.damageCooldown → playerTakeDamage dmg loc p g = (p, g)) ∧
      (0 < e.damageCooldown → enemyTakeDamage dmg loc e = (e, false)) ∧
      (p.damageCooldown ≤ 0 →
        (playerTakeDamage dmg loc p g).1 =
          { p with
            knockbackTimer := 1/10
            damageCooldown := 3/4
            dashTimer := 0
            vel := calcKnockback p.pos p.vel loc
            health := p.health - dmg }) ∧
      (e.damageCooldown ≤ 0 →
        (enemyTakeDamage dmg loc e).1.knockbackTimer = 1/10 ∧
        (enemyTakeDamage dmg loc e).1.damageCooldown = 3/4 ∧
        (enemyTakeDamage dmg loc e).1.vel = calcKnockback e.pos e.vel loc ∧
        (enemyTakeDamage dmg loc e).1.health = e.health - dmg) ∧
      (p.damageCooldown ≤ 0 → (∀ d ∈ dts, 0 ≤ d) → dts.sum < 3/4 →
        playerTakeDamage dmg2 loc2
            (dts.foldl (fun q t => playerCooldownTick t q)
              (playerTakeDamage dmg loc p g).1) g2 =
          (dts.foldl (fun q t => playerCooldownTick t q)
            (playerTakeDamage dmg loc p g).1, g2) ∧
        (dts.foldl (fun q t => playerCooldownTick t q)
          (playerTakeDamage dmg loc p g).1).health = p.health - dmg) ∧
      ((enemyUpdate platforms dt ppos pbody e).damageCooldown =
        if 0 < e.damageCooldown then e.damageCooldown - dt
        else e.damageCooldown) := by
  intro p e g g2 dmg dmg2 loc loc2 dts platforms dt ppos pbody
  refine ⟨?_, ?_, ?_, ?_, ?_, ?_⟩
  · exact playerTakeDamage_closed p g dmg loc
  · exact enemyTakeDamage_closed e dmg loc
  · exact playerTakeDamage_open p g dmg loc
  · intro h
    unfold enemyTakeDamage
    rw [if_pos h]
    dsimp only
    split <;> exact ⟨rfl, rfl, rfl, rfl⟩
  · intro h hnn hsum
    have hdc :
        0 < (dts.foldl (fun q t => playerCooldownTick t q)
          (playerTakeDamage dmg loc p g).1).damageCooldown := by
      rw [foldCooldownTick_damageCooldown]
      rw [countdown_pos_iff dts _ hnn]
      rw [playerTakeDamage_open p g dmg loc h]
      dsimp only
      linarith
    refine ⟨playerTakeDamage_closed _ g2 dmg2 loc2 hdc, ?_⟩
    rw [foldCooldownTick_health, playerTakeDamage_open p g dmg loc h]
  · exact enemyUpdate_damageCooldown platforms dt ppos pbody e

/-- Witness for C3 at concrete inputs: a closed-gate call on a player and an
enemy with cooldown 0.5 is the identity; an open-gate call on freshly
constructed entities applies every listed effect; a second call after two
ticks of 0.05s is a no-op with damage applied exactly once; one enemy update
ticks a 0.75s cooldown down to 0.7s. -/
theorem C3_witness :
    playerTakeDamage 1 ⟨0, 0⟩
        { playerInit 55 100 with damageCooldown := 1/2 } ⟨true, false, false, false, 0⟩ =
      ({ playerInit 55 100 with damageCooldown := 1/2 }, ⟨true, false, false, false, 0⟩) ∧
    enemyTakeDamage 1 ⟨0, 0⟩ { enemyInit 200 0 50 50 5 false with damageCooldown := 1/2 } =
      ({ enemyInit 200 0 50 50 5 false with damageCooldown := 1/2 }, false) ∧
    (playerTakeDamage 2 ⟨0, 0⟩ (playerInit 55 100) ⟨true, false, false, false, 0⟩).1 =
      { playerInit 55 100 with
        knockbackTimer := 1/10
        damageCooldown := 3/4
        dashTimer := 0
        vel := calcKnockback (playerInit 55 100).pos (playerInit 55 100).vel ⟨0, 0⟩
        health := (playerInit 55 100).health - 2 } ∧
    (enemyTakeDamage 2 ⟨0, 0⟩ (enemyInit 200 0 50 50 5 false)).1.damageCooldown = 3/4 ∧
    playerTakeDamage 1 ⟨0, 0⟩
        ([(1/20 : ℚ), 1/20].foldl (fun q t => playerCooldownTick t q)
          (playerTakeDamage 2 ⟨0, 0⟩ (playerInit 55 100) ⟨true, false, false, false, 0⟩).1)
        ⟨true, false, false, false, 0⟩ =
      (([(1/20 : ℚ), 1/20].foldl (fun q t => playerCooldownTick t q)
        (playerTakeDamage 2 ⟨0, 0⟩ (playerInit 55 100) ⟨true, false, false, false, 0⟩).1),
        ⟨true, false, false, false, 0⟩) ∧
    (enemyUpdate [] (1/20) ⟨0, 0⟩ ⟨0, 0, 55, 100⟩
      { enemyInit 200 0 50 50 5 false with damageCooldown := 3/4 }).damageCooldown = 7/10 := by
  have h1 := C3_takeDamage_cooldown_gating
    { playerInit 55 100 with damageCooldown := 1/2 }
    { enemyInit 200 0 50 50 5 false with damageCooldown := 1/2 }
    ⟨true, false, false, false, 0⟩ ⟨true, false, false, false, 0⟩ 1 1 ⟨0, 0⟩ ⟨0, 0⟩
    [] [] 0 ⟨0, 0⟩ ⟨0, 0, 55, 100⟩
  have h2 := C3_takeDamage_cooldown_gating (playerInit 55 100)
    (enemyInit 200 0 50 50 5 false) ⟨true, false, false, false, 0⟩
    ⟨true, false, false, false, 0⟩ 2 1 ⟨0, 0⟩ ⟨0, 0⟩ [(1/20 : ℚ), 1/20] [] (1/20)
    ⟨0, 0⟩ ⟨0, 0, 55, 100⟩
  have h3 := C3_takeDamage_cooldown_gating (playerInit 55 100)
    { enemyInit 200 0 50 50 5 false with damageCooldown := 3/4 }
    ⟨true, false, false, false, 0⟩ ⟨true, false, false, false, 0⟩ 2 1 ⟨0, 0⟩ ⟨0, 0⟩
    [] [] (1/20) ⟨0, 0⟩ ⟨0, 0, 55, 100⟩
  refine ⟨h1.1 (by norm_num [playerInit]), h1.2.1 (by norm_num [enemyInit]),
    h2.2.2.1 (by norm_num [playerInit]), ?_, ?_, ?_⟩
  · exact (h2.2.2.2.1 (by norm_num [enemyInit])).2.1
  · exact (h2.2.2.2.2.1 (by norm_num [playerInit])
      (by
        intro d hd
        simp only [List.mem_cons, List.not_mem_nil, or_false] at hd
        rcases hd with h | h <;> rw [h] <;> norm_num)
      (by norm_num)).1
  · rw [h3.2.2.2.2.2]
    norm_num [enemyInit]

theorem groundingUpdate_fst (dt : ℚ) (g : Bool) (c : ℚ) :
    (groundingUpdate dt g c).1 = (g || decide (0 < c)) := by
  cases g <;> by_cases hc : 0 < c <;> simp [groundingUpdate, hc]

theorem groundingUpdate_false_snd (dt c : ℚ) :
    (groundingUpdate dt false c).2 = if 0 < c then c - dt else c := by
  unfold groundingUpdate
  simp only [Bool.false_eq_true, if_false]
  split <;> rfl

theorem coyoteAfter_eq (dts : List ℚ) :
    coyoteAfter dts = dts.foldl (fun q t => if 0 < q then q - t else q) (1/20) := by
  unfold coyoteAfter
  exact List.foldl_ext _ _ _ (fun b a _ => groundingUpdate_false_snd a b)

/-- C6: after the vertical pass, `isGrounded` is true iff the player was
grounded by a downward collision this step or the coyote timer was still
positive; a grounded step resets the coyote timer to 0.05s; after a run of
non-grounded steps the coyote timer is positive (so the next step still
reports grounded, and a jump there succeeds) exactly when the elapsed
simulated time is below 0.05s, and a jump one step after expiry fails. -/
theorem C6_isGrounded_coyote_jump :
    ∀ (platforms : List Rect) (dt : ℚ) (p : PlayerState) (dts : List ℚ),
      ((playerVerticalPass platforms dt p).1.isGrounded =
        ((playerVerticalPass platforms dt p).2 || decide (0 < p.coyoteTimer))) ∧
      ((playerVerticalPass platforms dt p).2 = true →
        (playerVerticalPass platforms dt p).1.coyoteTimer = 1/20) ∧
      ((∀ d ∈ dts, 0 ≤ d) → (0 < coyoteAfter dts ↔ dts.sum < 1/20)) ∧
      (p.isDashing = false → p.knockbackTimer ≤ 0 → p.isGrounded = true →
        p.isJumping = false →
        playerHandleJump true p =
          { p with vel := { p.vel with y := p.jumpVelocity }, isJumping := true }) ∧
      (p.isGrounded = false → playerHandleJump true p = p) := by
  intro platforms dt p dts
  refine ⟨?_, ?_, ?_, ?_, ?_⟩
  · unfold playerVerticalPass
    dsimp only
    exact groundingUpdate_fst dt _ p.coyoteTimer
  · intro h
    unfold playerVerticalPass at h ⊢
    dsimp only at h ⊢
    rw [h]
    rfl
  · intro h
    rw [coyoteAfter_eq, countdown_pos_iff dts (1/20) h]
    constructor <;> intro <;> linarith
  · intro hD hK hG hJ
    unfold playerHandleJump
    rw [if_pos ⟨hD, hK⟩]
    simp only [if_true]
    rw [if_pos ⟨by rw [hG], hJ⟩]
  · intro hG
    unfold playerHandleJump
    by_cases hO : p.isDashing = false ∧ p.knockbackTimer ≤ 0
    · rw [if_pos hO]
      simp only [if_true]
      rw [if_neg (by
        intro hc
        rw [hG] at hc
        exact Bool.false_ne_true hc.1)]
    · rw [if_neg hO]

/-- Witness for C6 at concrete inputs: a player falling onto a platform is
grounded this frame and the coyote timer resets to 0.05s; after one
non-grounded 0.04s step the coyote timer is still positive (0.04 < 0.05); a
grounded, non-jumping player's jump attempt succeeds and a non-grounded
player's jump attempt is a no-op. -/
theorem C6_witness :
    ((playerVerticalPass [⟨0, 50, 100, 20⟩] (1/20)
        { playerInit 55 100 with vel := ⟨0, 10⟩ }).1.coyoteTimer = 1/20) ∧
    (0 < coyoteAfter [1/25] ↔ ([(1/25 : ℚ)].sum < 1/20)) ∧
    (playerHandleJump true { playerInit 55 100 with isGrounded := true } =
      { { playerInit 55 100 with isGrounded := true } with
        vel := { (playerInit 55 100).vel with y := (playerInit 55 100).jumpVelocity }
        isJumping := true }) ∧
    (playerHandleJump true (playerInit 55 100) = playerInit 55 100) := by
  refine ⟨?_, ?_, ?_, ?_⟩
  · exact (C6_isGrounded_coyote_jump [⟨0, 50, 100, 20⟩] (1/20)
      { playerInit 55 100 with vel := ⟨0, 10⟩ } []).2.1
      (by norm_num [playerVerticalPass, resolveY, resolveYStep, AABB, playerInit,
        truncQ, groundingUpdate])
  · exact (C6_isGrounded_coyote_jump [] 0 (playerInit 55 100) [1/25]).2.2.1
      (by
        intro d hd
        simp only [List.mem_cons, List.not_mem_nil, or_false] at hd
        rw [hd]
        norm_num)
  · exact (C6_isGrounded_coyote_jump [] 0
      { playerInit 55 100 with isGrounded := true } []).2.2.2.1
      (by norm_num [playerInit]) (by norm_num [playerInit]) rfl
      (by norm_num [playerInit])
  · exact (C6_isGrounded_coyote_jump [] 0 (playerInit 55 100) []).2.2.2.2 rfl

theorem bounceCheck_fields (t : Bool) (q : PlayerState) :
    (bounceCheck t q).attackHitbox = q.attackHitbox ∧
    (bounceCheck t q).isJumping = q.isJumping ∧
    (bounceCheck t q).attackDirection = q.attackDirection ∧
    (bounceCheck t q).jumpVelocity = q.jumpVelocity ∧
    (bounceCheck t q).isAttacking = q.isAttacking ∧
    (bounceCheck t q).pos = q.pos := by
  unfold bounceCheck
  split
  · split <;> exact ⟨rfl, rfl, rfl, rfl, rfl, rfl⟩
  · exact ⟨rfl, rfl, rfl, rfl, rfl, rfl⟩

theorem bounceCheck_preserves (t : Bool) (q : PlayerState) (jv : ℚ)
    (h1 : q.jumpVelocity = jv) (h2 : q.vel.y = jv * (3/2))
    (h3 : q.attackCooldown = 0) :
    (bounceCheck t q).jumpVelocity = jv ∧
    (bounceCheck t q).vel.y = jv * (3/2) ∧
    (bounceCheck t q).attackCooldown = 0 := by
  unfold bounceCheck
  split
  · split
    · exact ⟨h1, by dsimp only; rw [h1], rfl⟩
    · exact ⟨h1, h2, h3⟩
  · exact ⟨h1, h2, h3⟩

theorem dealDamageEnemies_preserves_bounce :
    ∀ (es : List EnemyState) (q : PlayerState) (jv : ℚ),
      q.jumpVelocity = jv → q.vel.y = jv * (3/2) → q.attackCooldown = 0 →
      (dealDamageEnemies q es).2.jumpVelocity = jv ∧
      (dealDamageEnemies q es).2.vel.y = jv * (3/2) ∧
      (dealDamageEnemies q es).2.attackCooldown = 0 := by
  intro es
  induction es with
  | nil =>
    intro q jv h1 h2 h3
    exact ⟨h1, h2, h3⟩
  | cons a rest ih =>
    intro q jv h1 h2 h3
    unfold dealDamageEnemies
    dsimp only
    split
    · split
      · obtain ⟨k1, k2, k3⟩ :=
          bounceCheck_preserves (enemyTakeDamage 2 q.pos a).2 q jv h1 h2 h3
        exact ih _ jv k1 k2 k3
      · exact ih q jv h1 h2 h3
    · exact ih q jv h1 h2 h3

theorem dealDamageEnemies_hit_bounces :
    ∀ (enemies : List EnemyState) (p : PlayerState) (e : EnemyState),
      e ∈ enemies → e.onScreen = true → AABB e.body p.attackHitbox = true →
      e.damageCooldown ≤ 0 → p.isJumping = false →
      p.attackDirection = AttackDirection.DOWN →
      (dealDamageEnemies p enemies).2.vel.y = p.jumpVelocity * (3/2) ∧
      (dealDamageEnemies p enemies).2.attackCooldown = 0 := by
  intro enemies
  induction enemies with
  | nil =>
    intro p e he
    exact absurd he (List.not_mem_nil e)
  | cons a rest ih =>
    intro p e he hOn hAB hdc hJ hDir
    rw [List.mem_cons] at he
    unfold dealDamageEnemies
    dsimp only
    rcases he with rfl | hmem
    · rw [if_pos hOn, if_pos hAB]
      have htook : (enemyTakeDamage 2 p.pos e).2 = true := by
        unfold enemyTakeDamage
        rw [if_pos hdc]
        dsimp only
        split <;> rfl
      rw [htook]
      have hp1 : (bounceCheck true p).jumpVelocity = p.jumpVelocity ∧
          (bounceCheck true p).vel.y = p.jumpVelocity * (3/2) ∧
          (bounceCheck true p).attackCooldown = 0 := by
        unfold bounceCheck
        rw [if_pos (by rw [hJ]; rfl), hDir]
        exact ⟨rfl, rfl, rfl⟩
      obtain ⟨k1, k2, k3⟩ := hp1
      have hrest := dealDamageEnemies_preserves_bounce rest
        (bounceCheck true p) p.jumpVelocity k1 k2 k3
      exact ⟨hrest.2.1, hrest.2.2⟩
    · by_cases hOnA : a.onScreen = true
      · rw [if_pos hOnA]
        by_cases hABA : AABB a.body p.attackHitbox = true
        · rw [if_pos hABA]
          have hf := bounceCheck_fields (enemyTakeDamage 2 p.pos a).2 p
          have hres := ih (bounceCheck (enemyTakeDamage 2 p.pos a).2 p) e hmem hOn
            (by rw [hf.1]; exact hAB) hdc (by rw [hf.2.1]; exact hJ)
            (by rw [hf.2.2.1]; exact hDir)
          rw [hf.2.2.2.1] at hres
          exact hres
        · rw [if_neg hABA]
          exact ih p e hmem hOn hAB hdc hJ hDir
      · rw [if_neg hOnA]
        exact ih p e hmem hOn hAB hdc hJ hDir

/-- C1 (amended): when the attack hitbox of an attacking player overlaps an
on-screen enemy whose damage gate is open, and the player's `isJumping` flag
is clear (the jump input is not driving a jump — this is the code's
condition; being airborne is neither necessary nor sufficient, see
`C1_counterexample`) and the attack direction is Down, the player's vertical
velocity becomes `jumpVelocity * 1.5` and the attack cooldown is zeroed. -/
theorem C1_amended_pogo_bounce :
    ∀ (enemies : List EnemyState) (coins : List Coin) (p : PlayerState)
      (g : GameState) (e : EnemyState),
      e ∈ enemies → e.onScreen = true → AABB e.body p.attackHitbox = true →
      e.damageCooldown ≤ 0 → p.isAttacking = true → p.isJumping = false →
      p.attackDirection = AttackDirection.DOWN →
      (playerDealDamage enemies coins p g).2.2.1.vel.y =
        p.jumpVelocity * (3/2) ∧
      (playerDealDamage enemies coins p g).2.2.1.attackCooldown = 0 := by
  intro enemies coins p g e hmem hOn hAB hdc hAtt hJ hDir
  unfold playerDealDamage
  rw [if_neg (by rw [hAtt]; exact Bool.false_ne_true)]
  dsimp only
  exact dealDamageEnemies_hit_bounces enemies p e hmem hOn hAB hdc hJ hDir

/-- An airborne player (isGrounded false) attacking downward with the jump
key still held (isJumping true): all premises of C1 as stated hold at this
input. -/
def cexC1Player : PlayerState :=
  { playerInit 55 100 with
    isAttacking := true
    isJumping := true
    attackDirection := AttackDirection.DOWN
    attackHitbox := ⟨0, 0, 55, 55⟩
    attackCooldown := 3/4 }

/-- The on-screen enemy hit by `cexC1Player`; its damage gate is open. -/
def cexC1Enemy : EnemyState := { enemyInit 0 0 50 50 10 false with onScreen := true }

/-- Counterexample to C1 as stated: the airborne player `cexC1Player`
(isGrounded = false, attack direction Down) lands a hit that is applied
(enemy health drops 10 → 8), yet because `isJumping` is true the code skips
the bounce: the player is returned entirely unchanged, with vertical
velocity 0 ≠ jumpVelocity·1.5 and attack cooldown 0.75 ≠ 0. -/
theorem C1_counterexample :
    ((playerDealDamage [cexC1Enemy] [] cexC1Player
        ⟨true, false, false, false, 0⟩).1.map (fun e => e.health) = [8]) ∧
    (playerDealDamage [cexC1Enemy] [] cexC1Player
      ⟨true, false, false, false, 0⟩).2.2.1 = cexC1Player ∧
    cexC1Player.isGrounded = false ∧
    (playerDealDamage [cexC1Enemy] [] cexC1Player
      ⟨true, false, false, false, 0⟩).2.2.1.vel.y ≠
      cexC1Player.jumpVelocity * (3/2) ∧
    (playerDealDamage [cexC1Enemy] [] cexC1Player
      ⟨true, false, false, false, 0⟩).2.2.1.attackCooldown ≠ 0 := by
  refine ⟨?_, ?_, ?_, ?_, ?_⟩ <;>
    norm_num [playerDealDamage, dealDamageEnemies, enemyTakeDamage, bounceCheck,
      coinPassAux, cexC1Player, cexC1Enemy, playerInit, enemyInit, calcKnockback,
      ratSqrt_zero, AABB]

/-- Witness for C1 (amended) at a concrete input: the same scenario with the
isJumping flag clear does bounce. -/
theorem C1_witness :
    (playerDealDamage [cexC1Enemy] [] { cexC1Player with isJumping := false }
      ⟨true, false, false, false, 0⟩).2.2.1.vel.y =
      ({ cexC1Player with isJumping := false } : PlayerState).jumpVelocity * (3/2) ∧
    (playerDealDamage [cexC1Enemy] [] { cexC1Player with isJumping := false }
      ⟨true, false, false, false, 0⟩).2.2.1.attackCooldown = 0 :=
  C1_amended_pogo_bounce [cexC1Enemy] [] { cexC1Player with isJumping := false }
    ⟨true, false, false, false, 0⟩ cexC1Enemy (List.mem_singleton_self _)
    (by norm_num [cexC1Enemy, enemyInit])
    (by norm_num [cexC1Enemy, cexC1Player, enemyInit, playerInit, AABB])
    (by norm_num [cexC1Enemy, enemyInit])
    (by norm_num [cexC1Player, playerInit])
    rfl
    rfl

theorem dealDamageEnemies_attackHitbox :
    ∀ (es : List EnemyState) (q : PlayerState),
      (dealDamageEnemies q es).2.attackHitbox = q.attackHitbox := by
  intro es
  induction es with
  | nil =>
    intro q
    rfl
  | cons a rest ih =>
    intro q
    unfold dealDamageEnemies
    dsimp only
    split
    · split
      · rw [ih, (bounceCheck_fields _ _).1]
      · exact ih q
    · exact ih q

theorem coinPassAux_last_win :
    ∀ (a done : List Coin) (c : Coin) (b : List Coin) (hitbox : Rect),
      (∀ x ∈ done, x.collected = true) → (∀ x ∈ a, x.collected = true) →
      (∀ x ∈ b, x.collected = true) → c.collected = false →
      AABB c.body hitbox = true →
      (coinPassAux hitbox done (a ++ c :: b)).2 = true := by
  intro a
  induction a with
  | nil =>
    intro done c b hitbox hdone ha hb hc hAB
    simp only [List.nil_append]
    unfold coinPassAux
    rw [if_neg (by rw [hc]; exact Bool.false_ne_true), if_pos hAB]
    dsimp only
    have hall : (done ++ (⟨c.body, true⟩ : Coin) :: b).all
        (fun x => x.collected) = true := by
      simp only [List.all_eq_true]
      intro x hx
      rcases List.mem_append.mp hx with h | h
      · exact hdone x h
      · rcases List.mem_cons.mp h with rfl | h
        · rfl
        · exact hb x h
    rw [hall]
    simp
  | cons y aRest ih =>
    intro done c b hitbox hdone ha hb hc hAB
    simp only [List.cons_append]
    unfold coinPassAux
    rw [if_pos (ha y (List.mem_cons_self _ _))]
    exact ih (done ++ [y]) c b hitbox
      (by
        intro x hx
        rcases List.mem_append.mp hx with h | h
        · exact hdone x h
        · rw [List.mem_singleton.mp h]
          exact ha y (List.mem_cons_self _ _))
      (fun x hx => ha x (List.mem_cons_of_mem _ hx)) hb hc hAB

/-- C8: collecting the last uncollected collectible fires the win trigger and
enters the fade-out; when the fade alpha then reaches its maximum, a win
leaves enemies and coins untouched and stops the run, while a death respawns
every enemy (alive, full health) and marks every coin uncollected. -/
theorem C8_last_coin_win_and_fade_reset :
    ∀ (enemies : List EnemyState) (a b : List Coin) (c : Coin)
      (p : PlayerState) (g : GameState) (dt : ℚ) (w : World),
      ((∀ x ∈ a, x.collected = true) → (∀ x ∈ b, x.collected = true) →
        c.collected = false → AABB c.body p.attackHitbox = true →
        p.isAttacking = true →
        (playerDealDamage enemies (a ++ c :: b) p g).2.2.2.playerHasWon = true ∧
        (playerDealDamage enemies (a ++ c :: b) p g).2.2.2.playerIsRespawning = true ∧
        (playerDealDamage enemies (a ++ c :: b) p g).2.2.2.playerHasReset = false ∧
        (playerDealDamage enemies (a ++ c :: b) p g).2.2.2.fadeAlpha = 0) ∧
      (w.game.playerIsRespawning = true → w.game.playerHasReset = false →
        255 ≤ w.game.fadeAlpha + Constants.FADE_SPEED * dt →
        ((w.game.playerHasWon = true →
          (gameStep dt w).enemies = w.enemies ∧
          (gameStep dt w).coins = w.coins ∧
          (gameStep dt w).game.isRunning = false) ∧
        (w.game.playerHasWon = false →
          (gameStep dt w).enemies = w.enemies.map enemyRespawn ∧
          (gameStep dt w).coins = w.coins.map (fun x => ⟨x.body, false⟩) ∧
          (∀ e ∈ (gameStep dt w).enemies, e.isAlive = true ∧ e.health = e.maxHealth) ∧
          (∀ x ∈ (gameStep dt w).coins, x.collected = false)))) := by
  intro enemies a b c p g dt w
  constructor
  · intro hA hB hC hAB hAtt
    unfold playerDealDamage
    rw [if_neg (by rw [hAtt]; exact Bool.false_ne_true)]
    dsimp only
    have hwin : (coinPassAux (dealDamageEnemies p enemies).2.attackHitbox []
        (a ++ c :: b)).2 = true := by
      rw [dealDamageEnemies_attackHitbox]
      exact coinPassAux_last_win a [] c b p.attackHitbox
        (fun x hx => absurd hx (List.not_mem_nil x)) hA hB hC hAB
    rw [hwin, if_pos rfl]
    exact ⟨rfl, rfl, rfl, rfl⟩
  · intro h1 h2 h3
    unfold gameStep
    rw [if_neg (by rw [h1]; simp), if_pos h2]
    dsimp only
    rw [if_pos h3]
    constructor
    · intro hw
      rw [if_neg (by rw [hw]; simp)]
      exact ⟨rfl, rfl, rfl⟩
    · intro hw
      rw [if_pos hw]
      refine ⟨rfl, rfl, ?_, ?_⟩
      · intro e he
        obtain ⟨e0, _, rfl⟩ := List.mem_map.mp he
        exact ⟨rfl, rfl⟩
      · intro x hx
        obtain ⟨x0, _, rfl⟩ := List.mem_map.mp hx
        rfl

/-- Witness for C8 at concrete inputs: an attacking player whose hitbox
covers the single uncollected coin triggers the win fade; a fade-out step
that saturates the alpha stops a won run without touching enemies or coins,
and after a death revives the enemy list and uncollects the coins. -/
theorem C8_witness :
    ((playerDealDamage [] ([] ++ (⟨⟨0, 0, 50, 50⟩, false⟩ : Coin) :: [])
        { playerInit 55 100 with isAttacking := true, attackHitbox := ⟨0, 0, 55, 55⟩ }
        ⟨true, false, false, false, 0⟩).2.2.2.playerHasWon = true ∧
      (playerDealDamage [] ([] ++ (⟨⟨0, 0, 50, 50⟩, false⟩ : Coin) :: [])
        { playerInit 55 100 with isAttacking := true, attackHitbox := ⟨0, 0, 55, 55⟩ }
        ⟨true, false, false, false, 0⟩).2.2.2.playerIsRespawning = true ∧
      (playerDealDamage [] ([] ++ (⟨⟨0, 0, 50, 50⟩, false⟩ : Coin) :: [])
        { playerInit 55 100 with isAttacking := true, attackHitbox := ⟨0, 0, 55, 55⟩ }
        ⟨true, false, false, false, 0⟩).2.2.2.playerHasReset = false ∧
      (playerDealDamage [] ([] ++ (⟨⟨0, 0, 50, 50⟩, false⟩ : Coin) :: [])
        { playerInit 55 100 with isAttacking := true, attackHitbox := ⟨0, 0, 55, 55⟩ }
        ⟨true, false, false, false, 0⟩).2.2.2.fadeAlpha = 0) ∧
    ((gameStep (1/20)
        ⟨⟨true, true, false, true, 250⟩, ⟨0, 0, 0, 0, 1400, 800⟩, ⟨0, 0, 1400, 800⟩,
          playerInit 55 100, [enemyInit 200 0 50 50 5 false], [],
          [⟨⟨0, 0, 50, 50⟩, true⟩]⟩).enemies = [enemyInit 200 0 50 50 5 false] ∧
      (gameStep (1/20)
        ⟨⟨true, true, false, true, 250⟩, ⟨0, 0, 0, 0, 1400, 800⟩, ⟨0, 0, 1400, 800⟩,
          playerInit 55 100, [enemyInit 200 0 50 50 5 false], [],
          [⟨⟨0, 0, 50, 50⟩, true⟩]⟩).game.isRunning = false) ∧
    ((gameStep (1/20)
        ⟨⟨true, true, false, false, 250⟩, ⟨0, 0, 0, 0, 1400, 800⟩, ⟨0, 0, 1400, 800⟩,
          playerInit 55 100, [{ enemyInit 200 0 50 50 5 false with isAlive := false }],
          [], [⟨⟨0, 0, 50, 50⟩, true⟩]⟩).enemies =
        [{ enemyInit 200 0 50 50 5 false with isAlive := false }].map enemyRespawn ∧
      (∀ x ∈ (gameStep (1/20)
        ⟨⟨true, true, false, false, 250⟩, ⟨0, 0, 0, 0, 1400, 800⟩, ⟨0, 0, 1400, 800⟩,
          playerInit 55 100, [{ enemyInit 200 0 50 50 5 false with isAlive := false }],
          [], [⟨⟨0, 0, 50, 50⟩, true⟩]⟩).coins, x.collected = false)) := by
  refine ⟨?_, ?_, ?_⟩
  · exact (C8_last_coin_win_and_fade_reset [] [] [] ⟨⟨0, 0, 50, 50⟩, false⟩
      { playerInit 55 100 with isAttacking := true, attackHitbox := ⟨0, 0, 55, 55⟩ }
      ⟨true, false, false, false, 0⟩ 0
      ⟨⟨true, false, false, false, 0⟩, ⟨0, 0, 0, 0, 1400, 800⟩, ⟨0, 0, 1400, 800⟩,
        playerInit 55 100, [], [], []⟩).1
      (fun x hx => absurd hx (List.not_mem_nil x))
      (fun x hx => absurd hx (List.not_mem_nil x)) rfl
      (by norm_num [AABB]) rfl
  · have h := (C8_last_coin_win_and_fade_reset [] [] [] ⟨⟨0, 0, 50, 50⟩, false⟩
      (playerInit 55 100) ⟨true, false, false, false, 0⟩ (1/20)
      ⟨⟨true, true, false, true, 250⟩, ⟨0, 0, 0, 0, 1400, 800⟩, ⟨0, 0, 1400, 800⟩,
        playerInit 55 100, [enemyInit 200 0 50 50 5 false], [],
        [⟨⟨0, 0, 50, 50⟩, true⟩]⟩).2 rfl rfl (by norm_num [Constants.FADE_SPEED])
    exact ⟨(h.1 rfl).1, (h.1 rfl).2.2⟩
  · have h := (C8_last_coin_win_and_fade_reset [] [] [] ⟨⟨0, 0, 50, 50⟩, false⟩
      (playerInit 55 100) ⟨true, false, false, false, 0⟩ (1/20)
      ⟨⟨true, true, false, false, 250⟩, ⟨0, 0, 0, 0, 1400, 800⟩, ⟨0, 0, 1400, 800⟩,
        playerInit 55 100, [{ enemyInit 200 0 50 50 5 false with isAlive := false }],
        [], [⟨⟨0, 0, 50, 50⟩, true⟩]⟩).2 rfl rfl (by norm_num [Constants.FADE_SPEED])
    exact ⟨(h.2 rfl).1, (h.2 rfl).2.2.2⟩

/-- C10: installing saved player data with health ≤ 0 on the freshly
constructed player (whose damage cooldown starts at 0) immediately calls
TakeDamage with zero damage through the open gate, re-triggering the death
fade (playerIsRespawning set, fade restarted); health stays at the loaded
nonpositive value (zero damage subtracted) and the 0.75s damage cooldown is
armed. The session therefore starts in the fade sequence, not in active
play. -/
theorem C10_dead_save_retriggers_death :
    ∀ (data : PlayerData) (width height : Int) (g : GameState),
      data.health ≤ 0 →
      (setPlayerData data (playerInit width height) g).2.playerIsRespawning = true ∧
      (setPlayerData data (playerInit width height) g).2.playerHasReset = false ∧
      (setPlayerData data (playerInit width height) g).2.fadeAlpha = 0 ∧
      (setPlayerData data (playerInit width height) g).1.health = data.health ∧
      (setPlayerData data (playerInit width height) g).1.damageCooldown = 3/4 := by
  intro data width height g h
  unfold setPlayerData
  dsimp only
  rw [if_pos (show ({ playerInit width height with
      body := { (playerInit width height).body with x := data.x, y := data.y }
      pos := ⟨(data.x : ℚ), (data.y : ℚ)⟩
      health := data.health } : PlayerState).health ≤ 0 from h)]
  unfold playerTakeDamage
  rw [if_pos (show ((playerInit width height).damageCooldown ≤ 0) from by
    norm_num [playerInit])]
  dsimp only
  rw [if_pos (show data.health - 0 ≤ 0 from by simpa using h)]
  refine ⟨rfl, rfl, rfl, ?_, rfl⟩
  simp

/-- Witness for C10 at a concrete input: saved data (100, 250, health 0). -/
theorem C10_witness :
    (setPlayerData ⟨100, 250, 0⟩ (playerInit 55 100)
      ⟨true, false, false, false, 0⟩).2.playerIsRespawning = true ∧
    (setPlayerData ⟨100, 250, 0⟩ (playerInit 55 100)
      ⟨true, false, false, false, 0⟩).1.health = (0 : Int) ∧
    (setPlayerData ⟨100, 250, 0⟩ (playerInit 55 100)
      ⟨true, false, false, false, 0⟩).1.damageCooldown = 3/4 := by
  have h := C10_dead_save_retriggers_death ⟨100, 250, 0⟩ 55 100
    ⟨true, false, false, false, 0⟩ (by norm_num)
  exact ⟨h.1, h.2.2.2.1, h.2.2.2.2⟩

end Platformer
